import Mathlib

/-!
Verification of the `ble-sync-cycle` sensor-acquisition pipeline.

Shallow embedding of the two source files:
* `internal/ble/sensor_controller.go` — BLE peripheral resolution, notification
  monitoring, and CSC (Cycling Speed and Cadence) payload decoding;
* `main.go` (package `main`) — the orchestrator `startAppControllers` running the
  notification monitor and the playback loop concurrently.

Machine integers are modelled as `Nat`/`Int` with explicit `% 2^w` wraparound,
bytes as `Fin 256`, Go `float64` speed arithmetic as `ℚ` (the constants 3.6 and
2.23694 and all inputs are exact decimals, so the formula structure is captured
exactly), and the concurrent `select` blocks as functions of the first arriving
event.
-/

namespace BLESync

/-- Byte payload of one BLE notification (Go `[]byte`), each entry a byte
value; the `% 256` in `byteAt` enforces the byte range. -/
abbrev Payload := List Nat

/-- Value of byte `i` of the payload (Go `data[i]`; out-of-range reads never
happen on the paths the code takes, the default 0 is inert). -/
def byteAt (data : Payload) (i : Nat) : Nat :=
  data.getD i 0 % 256

/-- Go `binary.LittleEndian.Uint32` on four bytes. -/
def uint32LE (b0 b1 b2 b3 : Nat) : Nat :=
  b0 + 256 * b1 + 65536 * b2 + 16777216 * b3

/-- Go `binary.LittleEndian.Uint16` on two bytes. -/
def uint16LE (b0 b1 : Nat) : Nat :=
  b0 + 256 * b1

/-- `wheelRevs := binary.LittleEndian.Uint32(data[1:])` (sensor_controller.go:169). -/
def parseWheelRevs (data : Payload) : Nat :=
  uint32LE (byteAt data 1) (byteAt data 2) (byteAt data 3) (byteAt data 4)

/-- `wheelEventTime := binary.LittleEndian.Uint16(data[5:])` (sensor_controller.go:170). -/
def parseEventTime (data : Payload) : Nat :=
  uint16LE (byteAt data 5) (byteAt data 6)

/-- Go `uint16(cur - prev)`: unsigned 16-bit wraparound subtraction
(sensor_controller.go:178). Both arguments are reduced `% 65536` first, which
is a no-op for in-range values. -/
def timeDiff16 (cur prev : Nat) : Nat :=
  (cur % 65536 + (65536 - prev % 65536)) % 65536

/-- Go `int32(cur - prev)` where `cur`, `prev` are `uint32`
(sensor_controller.go:183): unsigned 32-bit wraparound subtraction, then
two's-complement reinterpretation as a signed 32-bit value. -/
def revDiff32 (cur prev : Nat) : Int :=
  let d := (cur % 4294967296 + (4294967296 - prev % 4294967296)) % 4294967296
  if d < 2147483648 then (d : Int) else (d : Int) - 4294967296

/-- The fields of `config.SpeedConfig` read by the BLE controller. -/
structure SpeedConfig where
  speedUnits : String
  wheelCircumferenceMM : Nat

/-- The package-level CSC speed tracking variables of package `ble`
(sensor_controller.go:25-29): `lastWheelRevs uint32` and `lastWheelTime uint16`.
In the Go source these are globals shared by every `BLEController` in the
process; the embedding passes them explicitly so their flow is visible. -/
structure CSCState where
  lastWheelRevs : Nat
  lastWheelTime : Nat
deriving DecidableEq

/-- `speedConversion` selection (sensor_controller.go:184-187): 3.6 by default,
2.23694 when the configured units are `"mph"`. -/
def conversionFactor (units : String) : ℚ :=
  if units = "mph" then 2.23694 else 3.6

/-- `processBLESpeed` (sensor_controller.go:155-197), with the mutation of the
package-level `lastWheelRevs`/`lastWheelTime` made explicit as a state result.
Branches, in source order:
* `len(data) < 1` → 0, state untouched (line 156);
* wheel-revolution flag bit unset (`flags&0x01 == 0`) or `len(data) < 7` → 0,
  state untouched (lines 163-167);
* `lastWheelTime == 0` → store the parsed sample, return 0 (lines 172-176);
* `timeDiff == 0` → 0, state untouched — the Go code returns before the
  state-update statements on lines 193-194 (lines 178-181);
* otherwise compute the speed and store the parsed sample (lines 183-196). -/
def processBLESpeed (cfg : SpeedConfig) (st : CSCState) (data : Payload) : ℚ × CSCState :=
  if data.length < 1 then (0, st)
  else if byteAt data 0 % 2 = 0 ∨ data.length < 7 then (0, st)
  else if st.lastWheelTime = 0 then (0, ⟨parseWheelRevs data, parseEventTime data⟩)
  else if timeDiff16 (parseEventTime data) st.lastWheelTime = 0 then (0, st)
  else
    ((revDiff32 (parseWheelRevs data) st.lastWheelRevs : ℚ) *
        (cfg.wheelCircumferenceMM : ℚ) * conversionFactor cfg.speedUnits /
        (timeDiff16 (parseEventTime data) st.lastWheelTime : ℚ),
      ⟨parseWheelRevs data, parseEventTime data⟩)

/-- `NewBLEController` (sensor_controller.go:32-47) never touches the
package-level `lastWheelRevs`/`lastWheelTime`: constructing a fresh controller
leaves the process-wide decoder state exactly as the previous session left it. -/
def newBLEControllerGlobals (g : CSCState) : CSCState := g

/-! Peripheral Resolver: `scanForBLEPeripheral` (sensor_controller.go:110-152).
The function races a scan goroutine against `scanCtx := context.WithTimeout(ctx, ...)`
in a two-way `select`; it is modelled as a function of the first event the
`select` observes. -/

/-- Abstract `bluetooth.ScanResult`: only its address is read by the code. -/
structure ScanResult where
  address : String
deriving DecidableEq

/-- Why `scanCtx.Done()` fired: `scanCtx` is derived from the caller's context
with a timeout, so it closes either because the caller cancelled or because the
scan timeout elapsed. The Go `select` branch receives no information about
which. -/
inductive ScanCtxReason
  | parentCancelled
  | timeoutElapsed
deriving DecidableEq

/-- The first event observed by the `select` on lines 141-150: either a
matching advertisement was delivered on the `found` channel, or `scanCtx`
closed. -/
inductive ScanFirstEvent
  | matchFound (r : ScanResult)
  | ctxExpired (reason : ScanCtxReason)

/-- Result of `scanForBLEPeripheral`: the returned value/error, plus whether
`StopScan` was invoked before returning. -/
structure ScanOutcome where
  result : Except String ScanResult
  scanStopped : Bool

/-- `scanForBLEPeripheral`'s `select` (sensor_controller.go:141-150). On a
match the scan was already stopped inside the scan callback (lines 125-127) and
the result is returned; on `scanCtx.Done()` the scan is stopped and
`errors.New("scanning time limit reached")` is returned — the same error
whether `scanCtx` closed by caller cancellation or by timeout. -/
def scanForBLEPeripheral (ev : ScanFirstEvent) : ScanOutcome :=
  match ev with
  | .matchFound r => { result := .ok r, scanStopped := true }
  | .ctxExpired _ => { result := .error "scanning time limit reached", scanStopped := true }

/-! Characteristic resolution: `GetBLECharacteristic` (sensor_controller.go:50-89). -/

/-- Outcome of a Go call in this embedding: normal value, returned error, or a
runtime panic (out-of-range slice index). -/
inductive GoOutcome (α : Type)
  | ok (a : α)
  | err (e : String)
  | crash (msg : String)
deriving DecidableEq

/-- Whether the outcome is a returned (non-nil) error — a `.crash` is a runtime
panic, not a returned error. -/
def GoOutcome.isErr {α : Type} : GoOutcome α → Bool
  | .err _ => true
  | _ => false

/-- Environment for `GetBLECharacteristic`: results the BLE stack produces for
each call the function makes. Services and characteristics are abstracted to
`Nat` handles; `charsResult` is a function of the service handle it is invoked
on (`svc[0].DiscoverCharacteristics`). -/
structure DeviceEnv where
  scanEvent : ScanFirstEvent
  connectResult : Except String Unit
  servicesResult : Except String (List Nat)
  charsResult : Nat → Except String (List Nat)

/-- `GetBLECharacteristic` (sensor_controller.go:50-89). Discovery errors are
propagated verbatim (`return nil, err`). After a nil-error service discovery
the code logs `svc[0].UUID()` (line 76) and calls
`svc[0].DiscoverCharacteristics` (line 79) without checking `len(svc)`, and
likewise reads `char[0]` (lines 85-87) without checking `len(char)`: an empty
slice with a nil error is an out-of-range panic, modelled as `.crash`. -/
def GetBLECharacteristic (env : DeviceEnv) : GoOutcome Nat :=
  match (scanForBLEPeripheral env.scanEvent).result with
  | .error e => .err e
  | .ok _ =>
    match env.connectResult with
    | .error e => .err e
    | .ok _ =>
      match env.servicesResult with
      | .error e => .err e
      | .ok [] => .crash "index out of range"
      | .ok (s :: _) =>
        match env.charsResult s with
        | .error e => .err e
        | .ok [] => .crash "index out of range"
        | .ok (c :: _) => .ok c

/-! Notification Monitor: `GetBLEUpdates` (sensor_controller.go:92-107). -/

/-- `GetBLEUpdates` after the subscription attempt. `subscribeErr` is the
result of `char.EnableNotifications` (the characteristic handle is invalid,
e.g. because the adapter connection dropped, exactly when this is non-nil);
`ctxDone` says whether `ctx.Done()` has closed. The outer `Option` is `none`
while the function is still blocked on `<-ctx.Done()`; `some r` means it
returned with error `r`. A subscription error is returned immediately (line
101); otherwise the function blocks on line 104 and returns `nil` (line 105)
once the context is cancelled. -/
def GetBLEUpdates (subscribeErr : Option String) (ctxDone : Bool) : Option (Option String) :=
  match subscribeErr with
  | some e => some (some e)
  | none => if ctxDone then some none else none

/-! Orchestrator: `startAppControllers` (main.go `part_000`, lines 84-134). -/

/-- `logger.ComponentType` values used by the orchestrator. -/
inductive ComponentType
  | APP
  | BLE
  | VIDEO
deriving DecidableEq

/-- Input to the orchestrator's post-resolution phase: whether `ctx.Done()` is
observed by the `select` before any completion arrives on the `errs` channel,
and the two goroutine completions (component tag and returned error) in arrival
order. Each goroutine sends exactly one `componentErr` on the buffered
(capacity 1) `errs` channel. -/
structure OrchInput where
  ctxDoneFirst : Bool
  firstComp : ComponentType
  firstErr : Option String
  secondComp : ComponentType
  secondErr : Option String

/-- Observable outcome of `startAppControllers` after peripheral resolution:
the component/error pair it returns, whether the shared context is cancelled by
the time it returns, and whether the sibling goroutine's send on `errs`
completes without a matching receive. -/
structure OrchOutcome where
  comp : ComponentType
  err : Option String
  sharedCtxCancelled : Bool
  siblingSendAbsorbed : Bool
deriving DecidableEq

/-- `startAppControllers`'s concurrency skeleton (part_000 lines 102-133),
as a function of the first event its single `select` observes.

* The shared context comes from `signal.NotifyContext(ctx, ...)`, and
  `defer stop()` cancels it on every return path, so `sharedCtxCancelled` is
  true in every outcome — this is how a component failure unwinds the sibling.
* The `select` performs at most one receive from `errs`. If `ctx.Done()` wins,
  it returns `(logger.APP, ctx.Err())`, i.e. `"context canceled"`.
* If a completion wins with a non-nil error, it returns that component and
  error; with a nil error it falls through to `(logger.APP, nil)`.
* `errs` has capacity 1. In the completion branches one receive happened, so
  the sibling's later send lands in the buffer and completes (it is drained,
  never acted upon); in the `ctx.Done()` branch no receive happens, so of the
  two sends only one fits the buffer. -/
def startAppControllers (inp : OrchInput) : OrchOutcome :=
  if inp.ctxDoneFirst then
    { comp := .APP, err := some "context canceled",
      sharedCtxCancelled := true, siblingSendAbsorbed := false }
  else
    match inp.firstErr with
    | some e =>
        { comp := inp.firstComp, err := some e,
          sharedCtxCancelled := true, siblingSendAbsorbed := true }
    | none =>
        { comp := .APP, err := none,
          sharedCtxCancelled := true, siblingSendAbsorbed := true }

/-! Shared lemmas about the decoder branches. -/

/-- A valid payload (flag bit set, length ≥ 7) decoded in the fresh-baseline
state (`lastWheelTime = 0`) stores the parsed sample and returns speed 0. -/
lemma processBLESpeed_of_fresh (cfg : SpeedConfig) (st : CSCState) (data : Payload)
    (hlen : 7 ≤ data.length) (hflag : byteAt data 0 % 2 = 1)
    (hfresh : st.lastWheelTime = 0) :
    processBLESpeed cfg st data = (0, ⟨parseWheelRevs data, parseEventTime data⟩) := by
  unfold processBLESpeed
  rw [if_neg (by omega), if_neg (by omega), if_pos hfresh]

/-- A valid payload with an established baseline and zero time delta returns
speed 0 with the state untouched. -/
lemma processBLESpeed_of_zeroDelta (cfg : SpeedConfig) (st : CSCState) (data : Payload)
    (hlen : 7 ≤ data.length) (hflag : byteAt data 0 % 2 = 1)
    (hbase : st.lastWheelTime ≠ 0)
    (hdiff : timeDiff16 (parseEventTime data) st.lastWheelTime = 0) :
    processBLESpeed cfg st data = (0, st) := by
  unfold processBLESpeed
  rw [if_neg (by omega), if_neg (by omega), if_neg hbase, if_pos hdiff]

/-- A valid payload with an established baseline and nonzero time delta takes
the speed-formula branch and stores the parsed sample. -/
lemma processBLESpeed_of_run (cfg : SpeedConfig) (st : CSCState) (data : Payload)
    (hlen : 7 ≤ data.length) (hflag : byteAt data 0 % 2 = 1)
    (hbase : st.lastWheelTime ≠ 0)
    (hdiff : timeDiff16 (parseEventTime data) st.lastWheelTime ≠ 0) :
    processBLESpeed cfg st data =
      ((revDiff32 (parseWheelRevs data) st.lastWheelRevs : ℚ) *
          (cfg.wheelCircumferenceMM : ℚ) * conversionFactor cfg.speedUnits /
          (timeDiff16 (parseEventTime data) st.lastWheelTime : ℚ),
        ⟨parseWheelRevs data, parseEventTime data⟩) := by
  unfold processBLESpeed
  rw [if_neg (by omega), if_neg (by omega), if_neg hbase, if_neg hdiff]

/-- The conversion factor for the default (non-"mph") units is 3.6 = 18/5. -/
lemma conversionFactor_kmh : conversionFactor "km/h" = 18 / 5 := by
  rw [conversionFactor, if_neg (by decide)]; norm_num

/-- The conversion factor for "mph" is 2.23694 = 111847/50000. -/
lemma conversionFactor_mph : conversionFactor "mph" = 111847 / 50000 := by
  rw [conversionFactor, if_pos rfl]; norm_num

/-! Claim theorems. -/

/-- Claim C1, evidence of the code deviating from it: the CSC decoder state in
the code is the pair of package-level variables `lastWheelRevs`/`lastWheelTime`
(sensor_controller.go:25-29), shared process-wide, and `NewBLEController` does
not reset it. Concretely: the first session establishes the baseline
`⟨5, 1000⟩`; a controller for a fresh session then decodes ITS first valid
sample (revolutions 6, event time 2000) against that stale baseline and
returns the nonzero speed 7.578 km/h, instead of the speed 0 that a fresh,
session-scoped decoder state would give. Decoding as a function of
`(payload, priorState)` is deterministic (it is a plain function here); the
scoping conjunct of the claim is what the code violates. -/
theorem processBLESpeed_globalState_staleBaseline :
    newBLEControllerGlobals
        (processBLESpeed ⟨"km/h", 2105⟩ ⟨0, 0⟩ [1, 5, 0, 0, 0, 232, 3]).2 =
      (⟨5, 1000⟩ : CSCState) ∧
    (processBLESpeed ⟨"km/h", 2105⟩
        (newBLEControllerGlobals
          (processBLESpeed ⟨"km/h", 2105⟩ ⟨0, 0⟩ [1, 5, 0, 0, 0, 232, 3]).2)
        [1, 6, 0, 0, 0, 208, 7]).1 = 7578 / 1000 ∧
    (7578 / 1000 : ℚ) ≠ 0 := by
  refine ⟨by decide, ?_, by norm_num⟩
  norm_num [processBLESpeed, newBLEControllerGlobals, byteAt, parseWheelRevs,
    parseEventTime, uint32LE, uint16LE, timeDiff16, revDiff32, conversionFactor_kmh]

/-- Claim C3, counterexample to "the decoder state is still refreshed to the
new sample's wheel revolutions and event time before returning": with baseline
`⟨10, 100⟩` and a valid payload carrying revolutions 11 at the same event time
100 (`timeDiff = 0`), the code returns speed 0 from the `timeDiff == 0` branch
(sensor_controller.go:179-181) BEFORE the state-update statements on lines
193-194, so the state stays `⟨10, 100⟩` — it is not refreshed to `⟨11, 100⟩`. -/
theorem processBLESpeed_zeroDelta_noStateRefresh_cex :
    (processBLESpeed ⟨"km/h", 2105⟩ ⟨10, 100⟩ [1, 11, 0, 0, 0, 100, 0]).1 = 0 ∧
    parseWheelRevs [1, 11, 0, 0, 0, 100, 0] = 11 ∧
    parseEventTime [1, 11, 0, 0, 0, 100, 0] = 100 ∧
    (processBLESpeed ⟨"km/h", 2105⟩ ⟨10, 100⟩ [1, 11, 0, 0, 0, 100, 0]).2 = ⟨10, 100⟩ ∧
    (⟨10, 100⟩ : CSCState) ≠ ⟨11, 100⟩ := by
  refine ⟨?_, by decide, by decide, by decide, by decide⟩
  rw [processBLESpeed_of_zeroDelta _ _ _ (by decide) (by decide) (by decide) (by decide)]

/-- Claim C3 as amended: for every valid wheel-revolution payload whose
extracted event time equals the stored previous event time (`timeDiff = 0`)
with a nonzero baseline established, decode returns speed 0 and performs no
division (the only division in the function sits in the branch guarded by
`timeDiff ≠ 0`), and the decoder state is left UNCHANGED — the function
returns before the state-update statements, so the new sample's wheel
revolutions are not stored. -/
theorem processBLESpeed_zeroDelta_stateUnchanged (cfg : SpeedConfig) (st : CSCState)
    (data : Payload)
    (hlen : 7 ≤ data.length) (hflag : byteAt data 0 % 2 = 1)
    (hbase : st.lastWheelTime ≠ 0)
    (hdiff : timeDiff16 (parseEventTime data) st.lastWheelTime = 0) :
    processBLESpeed cfg st data = (0, st) :=
  processBLESpeed_of_zeroDelta cfg st data hlen hflag hbase hdiff

/-- Claim C3 amended theorem, witness at the counterexample input. -/
theorem processBLESpeed_zeroDelta_stateUnchanged_witness :
    7 ≤ ([1, 11, 0, 0, 0, 100, 0] : Payload).length ∧
    byteAt [1, 11, 0, 0, 0, 100, 0] 0 % 2 = 1 ∧
    (⟨10, 100⟩ : CSCState).lastWheelTime ≠ 0 ∧
    timeDiff16 (parseEventTime [1, 11, 0, 0, 0, 100, 0])
      (⟨10, 100⟩ : CSCState).lastWheelTime = 0 ∧
    processBLESpeed ⟨"km/h", 2105⟩ ⟨10, 100⟩ [1, 11, 0, 0, 0, 100, 0] = (0, ⟨10, 100⟩) :=
  ⟨by decide, by decide, by decide, by decide,
    processBLESpeed_zeroDelta_stateUnchanged ⟨"km/h", 2105⟩ ⟨10, 100⟩
      [1, 11, 0, 0, 0, 100, 0] (by decide) (by decide) (by decide) (by decide)⟩

/-- Claim C4: the decoder's time delta (`timeDiff := uint16(wheelEventTime -
lastWheelTime)`, sensor_controller.go:178, embedded as `timeDiff16`) is exactly
`(eventTime - previous) mod 65536` in signed integer arithmetic: unsigned
16-bit wraparound, never negative, always below 65536. -/
theorem timeDiff16_wraparound (prev cur : Nat) (_hp : prev < 65536) (_hc : cur < 65536) :
    ((timeDiff16 cur prev : Nat) : Int) = ((cur : Int) - (prev : Int)) % 65536 := by
  unfold timeDiff16
  omega

/-- Claim C4 witness: previous = 65531, current = 5 gives `timeDiff = 10`. -/
theorem timeDiff16_wraparound_witness :
    65531 < 65536 ∧ 5 < 65536 ∧
    ((timeDiff16 5 65531 : Nat) : Int) = ((5 : Int) - (65531 : Int)) % 65536 ∧
    timeDiff16 5 65531 = 10 :=
  ⟨by decide, by decide, timeDiff16_wraparound 65531 5 (by decide) (by decide), by decide⟩

/-- Claim C5: for every valid sample with an established baseline and nonzero
time delta, the returned speed is `revDiff * wheelCircumferenceMM *
conversionFactor / timeDiff`, with conversion factor 2.23694 when the
configured units are "mph" and 3.6 otherwise (in particular for "km/h"), and
with `revDiff` the signed 32-bit revolution delta flowing through the formula
unclamped. -/
theorem processBLESpeed_speedFormula (cfg : SpeedConfig) (st : CSCState) (data : Payload)
    (hlen : 7 ≤ data.length) (hflag : byteAt data 0 % 2 = 1)
    (hbase : st.lastWheelTime ≠ 0)
    (hdiff : timeDiff16 (parseEventTime data) st.lastWheelTime ≠ 0) :
    (processBLESpeed cfg st data).1 =
      (revDiff32 (parseWheelRevs data) st.lastWheelRevs : ℚ) *
        (cfg.wheelCircumferenceMM : ℚ) *
        (if cfg.speedUnits = "mph" then (2.23694 : ℚ) else (3.6 : ℚ)) /
        (timeDiff16 (parseEventTime data) st.lastWheelTime : ℚ) := by
  rw [processBLESpeed_of_run cfg st data hlen hflag hbase hdiff]
  simp [conversionFactor]

/-- Claim C5 witness: `revDiff = 1`, `wheelCircumferenceMM = 2105`,
`timeDiff = 1024` give speed 3789/512 = 7.400390625 ≈ 7.40 in km/h and
47087587/10240000 = 4.598397… ≈ 4.60 in mph (each within half a hundredth of
the rounded value). -/
theorem processBLESpeed_speedFormula_witness :
    7 ≤ ([1, 1, 0, 0, 0, 232, 7] : Payload).length ∧
    byteAt [1, 1, 0, 0, 0, 232, 7] 0 % 2 = 1 ∧
    (⟨0, 1000⟩ : CSCState).lastWheelTime ≠ 0 ∧
    timeDiff16 (parseEventTime [1, 1, 0, 0, 0, 232, 7])
      (⟨0, 1000⟩ : CSCState).lastWheelTime ≠ 0 ∧
    (processBLESpeed ⟨"km/h", 2105⟩ ⟨0, 1000⟩ [1, 1, 0, 0, 0, 232, 7]).1 =
      (revDiff32 (parseWheelRevs [1, 1, 0, 0, 0, 232, 7])
          (⟨0, 1000⟩ : CSCState).lastWheelRevs : ℚ) *
        ((⟨"km/h", 2105⟩ : SpeedConfig).wheelCircumferenceMM : ℚ) *
        (if (⟨"km/h", 2105⟩ : SpeedConfig).speedUnits = "mph"
          then (2.23694 : ℚ) else (3.6 : ℚ)) /
        (timeDiff16 (parseEventTime [1, 1, 0, 0, 0, 232, 7])
          (⟨0, 1000⟩ : CSCState).lastWheelTime : ℚ) ∧
    revDiff32 (parseWheelRevs [1, 1, 0, 0, 0, 232, 7]) 0 = 1 ∧
    timeDiff16 (parseEventTime [1, 1, 0, 0, 0, 232, 7]) 1000 = 1024 ∧
    (processBLESpeed ⟨"km/h", 2105⟩ ⟨0, 1000⟩ [1, 1, 0, 0, 0, 232, 7]).1 = 3789 / 512 ∧
    (740 / 100 - 1 / 200 : ℚ) < 3789 / 512 ∧ (3789 / 512 : ℚ) < 740 / 100 + 1 / 200 ∧
    (processBLESpeed ⟨"mph", 2105⟩ ⟨0, 1000⟩ [1, 1, 0, 0, 0, 232, 7]).1 =
      47087587 / 10240000 ∧
    (460 / 100 - 1 / 200 : ℚ) < 47087587 / 10240000 ∧
    (47087587 / 10240000 : ℚ) < 460 / 100 + 1 / 200 :=
  ⟨by decide, by decide, by decide, by decide,
    processBLESpeed_speedFormula ⟨"km/h", 2105⟩ ⟨0, 1000⟩ [1, 1, 0, 0, 0, 232, 7]
      (by decide) (by decide) (by decide) (by decide),
    by decide, by decide,
    by norm_num [processBLESpeed, byteAt, parseWheelRevs, parseEventTime, uint32LE,
      uint16LE, timeDiff16, revDiff32, conversionFactor_kmh],
    by norm_num, by norm_num,
    by norm_num [processBLESpeed, byteAt, parseWheelRevs, parseEventTime, uint32LE,
      uint16LE, timeDiff16, revDiff32, conversionFactor_mph],
    by norm_num, by norm_num⟩

/-- Claim C6: a valid wheel-revolution payload decoded in a fresh session
(`lastWheelTime = 0`, the session-start convention of
sensor_controller.go:172-176) stores the extracted wheel revolutions and event
time and returns speed 0 — the first valid sample never yields nonzero speed. -/
theorem processBLESpeed_freshSessionBaseline (cfg : SpeedConfig) (st : CSCState)
    (data : Payload)
    (hlen : 7 ≤ data.length) (hflag : byteAt data 0 % 2 = 1)
    (hfresh : st.lastWheelTime = 0) :
    processBLESpeed cfg st data = (0, ⟨parseWheelRevs data, parseEventTime data⟩) :=
  processBLESpeed_of_fresh cfg st data hlen hflag hfresh

/-- Claim C6 witness: first sample with revolutions 42 and event time 1000 in a
fresh session returns speed 0 and baseline `⟨42, 1000⟩`. -/
theorem processBLESpeed_freshSessionBaseline_witness :
    7 ≤ ([1, 42, 0, 0, 0, 232, 3] : Payload).length ∧
    byteAt [1, 42, 0, 0, 0, 232, 3] 0 % 2 = 1 ∧
    (⟨0, 0⟩ : CSCState).lastWheelTime = 0 ∧
    parseWheelRevs [1, 42, 0, 0, 0, 232, 3] = 42 ∧
    parseEventTime [1, 42, 0, 0, 0, 232, 3] = 1000 ∧
    processBLESpeed ⟨"km/h", 2105⟩ ⟨0, 0⟩ [1, 42, 0, 0, 0, 232, 3] =
      (0, ⟨parseWheelRevs [1, 42, 0, 0, 0, 232, 3],
            parseEventTime [1, 42, 0, 0, 0, 232, 3]⟩) :=
  ⟨by decide, by decide, rfl, by decide, by decide,
    processBLESpeed_freshSessionBaseline ⟨"km/h", 2105⟩ ⟨0, 0⟩
      [1, 42, 0, 0, 0, 232, 3] (by decide) (by decide) rfl⟩

/-- Claim C10: a fully processed valid sample whose extracted event time is
exactly 0 (a wraparound landing on tick 0) stores `lastWheelTime = 0`, so the
next valid sample hits the `lastWheelTime == 0` fresh-session branch
(sensor_controller.go:172-176): it re-establishes the baseline and returns
speed 0 instead of a computed speed, silently dropping one measurement
interval. -/
theorem processBLESpeed_eventTimeZero_dropsNextInterval (cfg : SpeedConfig)
    (st : CSCState) (d1 d2 : Payload)
    (h1len : 7 ≤ d1.length) (h1flag : byteAt d1 0 % 2 = 1)
    (hbase : st.lastWheelTime ≠ 0) (hlt : st.lastWheelTime < 65536)
    (h1time : parseEventTime d1 = 0)
    (h2len : 7 ≤ d2.length) (h2flag : byteAt d2 0 % 2 = 1) :
    (processBLESpeed cfg st d1).2.lastWheelTime = 0 ∧
    (processBLESpeed cfg (processBLESpeed cfg st d1).2 d2).1 = 0 ∧
    (processBLESpeed cfg (processBLESpeed cfg st d1).2 d2).2 =
      ⟨parseWheelRevs d2, parseEventTime d2⟩ := by
  have hdiff : timeDiff16 (parseEventTime d1) st.lastWheelTime ≠ 0 := by
    rw [h1time]; unfold timeDiff16; omega
  have h1 := processBLESpeed_of_run cfg st d1 h1len h1flag hbase hdiff
  rw [h1]
  refine ⟨h1time, ?_⟩
  rw [processBLESpeed_of_fresh cfg _ d2 h2len h2flag h1time]
  exact ⟨rfl, rfl⟩

/-- Claim C10 witness: baseline `⟨0, 65000⟩`; the first sample (revolutions 9,
event time 0) is fully processed and stores `lastWheelTime = 0`; the next
sample (revolutions 10, event time 100) is then treated as a session start and
yields speed 0. -/
theorem processBLESpeed_eventTimeZero_dropsNextInterval_witness :
    7 ≤ ([1, 9, 0, 0, 0, 0, 0] : Payload).length ∧
    byteAt [1, 9, 0, 0, 0, 0, 0] 0 % 2 = 1 ∧
    (⟨0, 65000⟩ : CSCState).lastWheelTime ≠ 0 ∧
    (⟨0, 65000⟩ : CSCState).lastWheelTime < 65536 ∧
    parseEventTime [1, 9, 0, 0, 0, 0, 0] = 0 ∧
    7 ≤ ([1, 10, 0, 0, 0, 100, 0] : Payload).length ∧
    byteAt [1, 10, 0, 0, 0, 100, 0] 0 % 2 = 1 ∧
    ((processBLESpeed ⟨"km/h", 2105⟩ ⟨0, 65000⟩ [1, 9, 0, 0, 0, 0, 0]).2.lastWheelTime = 0 ∧
      (processBLESpeed ⟨"km/h", 2105⟩
          (processBLESpeed ⟨"km/h", 2105⟩ ⟨0, 65000⟩ [1, 9, 0, 0, 0, 0, 0]).2
          [1, 10, 0, 0, 0, 100, 0]).1 = 0 ∧
      (processBLESpeed ⟨"km/h", 2105⟩
          (processBLESpeed ⟨"km/h", 2105⟩ ⟨0, 65000⟩ [1, 9, 0, 0, 0, 0, 0]).2
          [1, 10, 0, 0, 0, 100, 0]).2 =
        ⟨parseWheelRevs [1, 10, 0, 0, 0, 100, 0],
          parseEventTime [1, 10, 0, 0, 0, 100, 0]⟩) :=
  ⟨by decide, by decide, by decide, by decide, by decide, by decide, by decide,
    processBLESpeed_eventTimeZero_dropsNextInterval ⟨"km/h", 2105⟩ ⟨0, 65000⟩
      [1, 9, 0, 0, 0, 0, 0] [1, 10, 0, 0, 0, 100, 0]
      (by decide) (by decide) (by decide) (by decide) (by decide) (by decide) (by decide)⟩

/-- Claim C7, counterexample to "returns ContextCancelled rather than
ScanTimeout on mid-scan cancellation": `scanForBLEPeripheral`'s `select`
(sensor_controller.go:141-150) has a single `scanCtx.Done()` branch that
returns `errors.New("scanning time limit reached")` whether `scanCtx` closed
because the caller cancelled or because the timeout elapsed — the result on
cancellation is literally the ScanTimeout error, and no distinct
context-cancellation error ("context canceled") is ever produced. -/
theorem scanForBLEPeripheral_cancelled_cex :
    (scanForBLEPeripheral (.ctxExpired .parentCancelled)).result =
      .error "scanning time limit reached" ∧
    (scanForBLEPeripheral (.ctxExpired .timeoutElapsed)).result =
      .error "scanning time limit reached" ∧
    "scanning time limit reached" ≠ "context canceled" :=
  ⟨rfl, rfl, by decide⟩

/-- Claim C7 as amended: when `scanCtx` closes with no match — whether by
caller cancellation mid-scan or by the scan timeout elapsing — the scan is
stopped and the same "scanning time limit reached" (ScanTimeout) error is
returned; the resolver does not distinguish cancellation from timeout and
returns no ContextCancelled error. -/
theorem scanForBLEPeripheral_ctxExpired_spec :
    ∀ reason : ScanCtxReason,
      (scanForBLEPeripheral (.ctxExpired reason)).result =
        .error "scanning time limit reached" ∧
      (scanForBLEPeripheral (.ctxExpired reason)).scanStopped = true :=
  fun _ => ⟨rfl, rfl⟩

/-- Claim C8, counterexample to "in both empty-result cases an error is
returned rather than any unguarded access to the empty result list": after a
successful scan and connect, a service discovery that returns an empty slice
with a nil error drives the code into `svc[0]` (sensor_controller.go:76)
without a length check — an out-of-range panic, not a returned error. -/
theorem getBLECharacteristic_emptyServices_cex :
    GetBLECharacteristic
        { scanEvent := .matchFound ⟨"F1:42:D8:A7:33:66"⟩, connectResult := .ok (),
          servicesResult := .ok [], charsResult := fun _ => .ok [] } =
      .crash "index out of range" ∧
    (GoOutcome.crash "index out of range" : GoOutcome Nat).isErr = false :=
  ⟨rfl, rfl⟩

/-- Claim C8 as amended: a service-discovery or characteristic-discovery error
is propagated verbatim as the resolver's returned error (there are no named
ServiceNotFound/CharacteristicNotFound errors in the code), while an EMPTY
discovery result with a nil error is not guarded: the code indexes element 0
of the empty slice (out-of-range panic) instead of returning an error. -/
theorem getBLECharacteristic_discoveryFailure_spec (env : DeviceEnv) (r : ScanResult)
    (s : Nat) (rest : List Nat)
    (hscan : env.scanEvent = .matchFound r) (hconn : env.connectResult = .ok ()) :
    (∀ e, env.servicesResult = .error e → GetBLECharacteristic env = .err e) ∧
    (env.servicesResult = .ok [] →
      GetBLECharacteristic env = .crash "index out of range") ∧
    (env.servicesResult = .ok (s :: rest) →
      (∀ e, env.charsResult s = .error e → GetBLECharacteristic env = .err e) ∧
      (env.charsResult s = .ok [] →
        GetBLECharacteristic env = .crash "index out of range")) := by
  refine ⟨?_, ?_, ?_⟩
  · intro e he
    simp [GetBLECharacteristic, scanForBLEPeripheral, hscan, hconn, he]
  · intro he
    simp [GetBLECharacteristic, scanForBLEPeripheral, hscan, hconn, he]
  · intro hsvc
    refine ⟨?_, ?_⟩
    · intro e he
      simp [GetBLECharacteristic, scanForBLEPeripheral, hscan, hconn, hsvc, he]
    · intro he
      simp [GetBLECharacteristic, scanForBLEPeripheral, hscan, hconn, hsvc, he]

/-- Claim C8 amended theorem, witness: a service-discovery error is returned
verbatim. -/
theorem getBLECharacteristic_discoveryFailure_spec_witness :
    ({ scanEvent := .matchFound ⟨"F1:42:D8:A7:33:66"⟩, connectResult := .ok (),
        servicesResult := .error "no CSC service", charsResult := fun _ => .ok [7] }
          : DeviceEnv).scanEvent = .matchFound ⟨"F1:42:D8:A7:33:66"⟩ ∧
    ({ scanEvent := .matchFound ⟨"F1:42:D8:A7:33:66"⟩, connectResult := .ok (),
        servicesResult := .error "no CSC service", charsResult := fun _ => .ok [7] }
          : DeviceEnv).connectResult = .ok () ∧
    GetBLECharacteristic
        { scanEvent := .matchFound ⟨"F1:42:D8:A7:33:66"⟩, connectResult := .ok (),
          servicesResult := .error "no CSC service", charsResult := fun _ => .ok [7] } =
      .err "no CSC service" :=
  ⟨rfl, rfl,
    (getBLECharacteristic_discoveryFailure_spec
        { scanEvent := .matchFound ⟨"F1:42:D8:A7:33:66"⟩, connectResult := .ok (),
          servicesResult := .error "no CSC service", charsResult := fun _ => .ok [7] }
        ⟨"F1:42:D8:A7:33:66"⟩ 0 [] rfl rfl).1 "no CSC service" rfl⟩

/-- Claim C9: after `EnableNotifications` succeeds, `GetBLEUpdates`
(sensor_controller.go:92-107) blocks on `<-ctx.Done()` and returns `nil`
exactly on cancellation; an invalid characteristic handle (the adapter
connection dropped) manifests as a non-nil `EnableNotifications` error, which
the monitor returns immediately as its non-nil loop error. -/
theorem getBLEUpdates_monitorContract :
    ∀ (ctxDone : Bool) (e : String),
      GetBLEUpdates none false = none ∧
      GetBLEUpdates none true = some none ∧
      (GetBLEUpdates none ctxDone = some none ↔ ctxDone = true) ∧
      GetBLEUpdates (some e) ctxDone = some (some e) ∧
      GetBLEUpdates (some e) ctxDone ≠ some none := by
  intro ctxDone e
  refine ⟨rfl, rfl, ?_, rfl, by simp [GetBLEUpdates]⟩
  cases ctxDone <;> simp [GetBLEUpdates]

/-- Claim C2: if the orchestrator's `select` (part_000 lines 124-131) observes
a completion carrying a non-nil error before any context cancellation, it
returns that component's error (not a generic cancellation error); the shared
context is cancelled on return (`defer stop()`), which unwinds the sibling;
the sibling's own later completion is absorbed by the capacity-1 `errs` buffer
and never read — the outcome does not depend on it. -/
theorem startAppControllers_firstErrorWins (inp : OrchInput) (e : String)
    (hctx : inp.ctxDoneFirst = false) (herr : inp.firstErr = some e) :
    (startAppControllers inp).comp = inp.firstComp ∧
    (startAppControllers inp).err = some e ∧
    (startAppControllers inp).sharedCtxCancelled = true ∧
    (startAppControllers inp).siblingSendAbsorbed = true ∧
    (∀ c₂ e₂, startAppControllers { inp with secondComp := c₂, secondErr := e₂ } =
      startAppControllers inp) := by
  simp [startAppControllers, hctx, herr]

/-- Claim C2 witness: the playback loop fails first with "mpv playback failed"
while the BLE monitor is still running; the orchestrator reports
(VIDEO, "mpv playback failed"), cancels the shared context, and the monitor's
later completion is drained without affecting the outcome. -/
theorem startAppControllers_firstErrorWins_witness :
    (⟨false, .VIDEO, some "mpv playback failed", .BLE, none⟩ : OrchInput).ctxDoneFirst
      = false ∧
    (⟨false, .VIDEO, some "mpv playback failed", .BLE, none⟩ : OrchInput).firstErr
      = some "mpv playback failed" ∧
    ((startAppControllers ⟨false, .VIDEO, some "mpv playback failed", .BLE, none⟩).comp =
        (⟨false, .VIDEO, some "mpv playback failed", .BLE, none⟩ : OrchInput).firstComp ∧
      (startAppControllers ⟨false, .VIDEO, some "mpv playback failed", .BLE, none⟩).err =
        some "mpv playback failed" ∧
      (startAppControllers
          ⟨false, .VIDEO, some "mpv playback failed", .BLE, none⟩).sharedCtxCancelled
        = true ∧
      (startAppControllers
          ⟨false, .VIDEO, some "mpv playback failed", .BLE, none⟩).siblingSendAbsorbed
        = true ∧
      (∀ c₂ e₂,
        startAppControllers
            { (⟨false, .VIDEO, some "mpv playback failed", .BLE, none⟩ : OrchInput) with
              secondComp := c₂, secondErr := e₂ } =
          startAppControllers ⟨false, .VIDEO, some "mpv playback failed", .BLE, none⟩)) :=
  ⟨rfl, rfl,
    startAppControllers_firstErrorWins
      ⟨false, .VIDEO, some "mpv playback failed", .BLE, none⟩
      "mpv playback failed" rfl rfl⟩

end BLESync
